import Mathlib

/-!
Verification of the `check` command of tfproviderdocs (src/command/check.go)
against its natural-language specification.

The command layer is embedded shallowly: pure Go helpers become Lean
functions; the effectful parts of `CheckCommand.Run` (flag parsing, the
working directory, directory enumeration, file reads, JSON decoding and
validation, and the check engine of the external `check` package) are
modelled as outcomes supplied by a `RunEnv` environment, and `Run`'s
control flow is reproduced over those outcomes.
-/

namespace TfProviderDocs

/-- An entry of a `terraform providers schema -json` document
(`tfjson.Schema`).  The command layer never inspects its contents, it only
passes the maps around, so the payload is reduced to its version number. -/
structure Schema where
  version : Int
deriving DecidableEq

/-- Go `map[string]V` values are modelled as association lists (first
binding wins, mirroring map-key uniqueness); a `nil` map is `Option.none`
at the use sites that distinguish it. -/
def lookupAssoc {α : Type} : List (String × α) → String → Option α
  | [], _ => none
  | (k, v) :: rest, key => if k = key then some v else lookupAssoc rest key

/-- One provider entry of `tfjson.ProviderSchemas.Schemas`
(`tfjson.ProviderSchema`): the two sub-maps consulted by the command.
A field is `none` when the Go map is `nil`. -/
structure ProviderSchema where
  dataSourceSchemas : Option (List (String × Schema))
  resourceSchemas : Option (List (String × Schema))
deriving DecidableEq

/-- `tfjson.ProviderSchemas`: `schemas` is `none` when the Go `Schemas`
map is `nil`. -/
structure ProviderSchemas where
  schemas : Option (List (String × ProviderSchema))
deriving DecidableEq

/-- Helper of `goSplit`: splits a character list at every occurrence of the
separator, `acc` holding the current field reversed. -/
def goSplitAux (sep : Char) : List Char → List Char → List (List Char)
  | [], acc => [acc.reverse]
  | c :: rest, acc =>
    if c = sep then acc.reverse :: goSplitAux sep rest []
    else goSplitAux sep rest (c :: acc)

/-- Go `strings.Split` for a single-character separator (the only shape the
command uses: "/" and ","): `goSplit "" sep = [""]`, adjacent separators
yield empty fields, a trailing separator yields a trailing empty field. -/
def goSplit (s : String) (sep : Char) : List String :=
  (goSplitAux sep s.data []).map String.mk

/-- Go `filepath.Base` (unix rules): empty path gives ".", trailing
separators are stripped, the last path element is returned, and a path of
only separators gives "/". -/
def goFilepathBase (path : String) : String :=
  if path = "" then "."
  else
    let r := path.data.reverse.dropWhile (fun c => c = '/')
    if r = [] then "/"
    else String.mk ((r.takeWhile (fun c => c ≠ '/')).reverse)

/-- `providerNameFromPath` (check.go:350): basename of the path; rejected
(empty result) when it contains '.' or '/', or lacks the
"terraform-provider-" naming convention; otherwise the convention suffix. -/
def providerNameFromPath (path : String) : String :=
  let base := (goFilepathBase path).data
  if base.any (fun c => c = '.' || c = '/') then ""
  else if "terraform-provider-".data.isPrefixOf base then
    String.mk (base.drop "terraform-provider-".data.length)
  else ""

/-- `providerSourceParts[len(providerSourceParts)-1]` (check.go:121-122):
the last '/'-separated segment of a string (`goSplit` never returns an
empty list, so the default is never taken). -/
def lastSegment (s : String) : String :=
  (goSplit s '/').getLastD ""

/-- The provider-name resolution of `CheckCommand.Run` (check.go:120-131):
an explicitly configured name wins; otherwise the last '/'-separated
segment of a non-empty provider source; if the name is still empty, the
basename convention on the given path, or on the working directory when no
path was given.  `cwd` stands for `os.Getwd` in
`providerNameFromCurrentDirectory` (check.go:344). -/
def deriveProviderName (cfgName cfgSource cfgPath cwd : String) : String :=
  let n1 :=
    if cfgName = "" ∧ cfgSource ≠ "" then lastSegment cfgSource
    else cfgName
  if n1 = "" then
    if cfgPath = "" then providerNameFromPath cwd else providerNameFromPath cfgPath
  else n1

/-- `CheckCommandConfig` (check.go:21-40). -/
structure CheckCommandConfig where
  allowedGuideSubcategories : String
  allowedGuideSubcategoriesFile : String
  allowedResourceSubcategories : String
  allowedResourceSubcategoriesFile : String
  enableContentsCheck : Bool
  ignoreCdktfMissingFiles : Bool
  ignoreFileMismatchDataSources : String
  ignoreFileMismatchResources : String
  ignoreFileMissingDataSources : String
  ignoreFileMissingResources : String
  path : String
  providerName : String
  providerSource : String
  providersSchemaJson : String
  requireGuideSubcategory : Bool
  requireResourceSubcategory : Bool
  requireSchemaOrdering : Bool
deriving DecidableEq

/-- The `var x []string; if v != "" { x = strings.Split(v, ",") }` idiom
used for every comma-separated option list (check.go:156-204). -/
def commaList (s : String) : List String :=
  if s = "" then [] else goSplit s ','

/-- `providerSchemasDataSources` (check.go:388-415): nil-pointer and
nil-map guard, lookup of the provider source key with fallback to the bare
provider name, returning the provider's data-source schema map (possibly
nil) or nil when neither key is present. -/
def providerSchemasDataSources (ps : Option ProviderSchemas)
    (providerName providerSource : String) : Option (List (String × Schema)) :=
  match ps with
  | none => none
  | some ps =>
    match ps.schemas with
    | none => none
    | some m =>
      match lookupAssoc m providerSource with
      | some provider => provider.dataSourceSchemas
      | none =>
        match lookupAssoc m providerName with
        | some provider => provider.dataSourceSchemas
        | none => none

/-- `providerSchemasResources` (check.go:418-445): same shape as the
data-source variant, over the resource schema map. -/
def providerSchemasResources (ps : Option ProviderSchemas)
    (providerName providerSource : String) : Option (List (String × Schema)) :=
  match ps with
  | none => none
  | some ps =>
    match ps.schemas with
    | none => none
    | some m =>
      match lookupAssoc m providerSource with
      | some provider => provider.resourceSchemas
      | none =>
        match lookupAssoc m providerName with
        | some provider => provider.resourceSchemas
        | none => none

/-- `check.ResourceType` constants used at check.go:235 and check.go:302. -/
inductive ResourceType
  | dataSource
  | resource
deriving DecidableEq

/-- `check.FileMismatchOptions` as populated by `Run`
(check.go:231-237, check.go:298-304). -/
structure FileMismatchOptions where
  ignoreFileMismatch : List String
  ignoreFileMissing : List String
  providerName : String
  resourceType : ResourceType
  schemas : Option (List (String × Schema))
deriving DecidableEq

/-- `check.FrontMatterOptions` as populated by `Run`. -/
structure FrontMatterOptions where
  allowedSubcategories : List String
  requireSubcategory : Bool
deriving DecidableEq

/-- `check.FileOptions` as populated by `Run` (check.go:227-229). -/
structure FileOptions where
  basePath : String
deriving DecidableEq

/-- `check.ContentsOptions` as populated by `Run`
(check.go:256-259, check.go:287-290). -/
structure ContentsOptions where
  enable : Bool
  requireSchemaOrdering : Bool
deriving DecidableEq

/-- `check.LegacyDataSourceFileOptions` as populated by `Run`. -/
structure LegacyDataSourceFileOptions where
  fileOptions : FileOptions
  frontMatter : FrontMatterOptions
deriving DecidableEq

/-- `check.LegacyGuideFileOptions` as populated by `Run`. -/
structure LegacyGuideFileOptions where
  fileOptions : FileOptions
  frontMatter : FrontMatterOptions
deriving DecidableEq

/-- `check.LegacyIndexFileOptions` as populated by `Run`. -/
structure LegacyIndexFileOptions where
  fileOptions : FileOptions
deriving DecidableEq

/-- `check.LegacyResourceFileOptions` as populated by `Run`
(check.go:255-266). -/
structure LegacyResourceFileOptions where
  contents : ContentsOptions
  fileOptions : FileOptions
  frontMatter : FrontMatterOptions
  providerName : String
deriving DecidableEq

/-- `check.RegistryDataSourceFileOptions` as populated by `Run`. -/
structure RegistryDataSourceFileOptions where
  fileOptions : FileOptions
  frontMatter : FrontMatterOptions
deriving DecidableEq

/-- `check.RegistryGuideFileOptions` as populated by `Run`. -/
structure RegistryGuideFileOptions where
  fileOptions : FileOptions
  frontMatter : FrontMatterOptions
deriving DecidableEq

/-- `check.RegistryIndexFileOptions` as populated by `Run`. -/
structure RegistryIndexFileOptions where
  fileOptions : FileOptions
deriving DecidableEq

/-- `check.RegistryResourceFileOptions` as populated by `Run`
(check.go:286-297). -/
structure RegistryResourceFileOptions where
  contents : ContentsOptions
  fileOptions : FileOptions
  frontMatter : FrontMatterOptions
  providerName : String
deriving DecidableEq

/-- `check.CheckOptions` as populated by `Run` (check.go:230-306). -/
structure CheckOptions where
  dataSourceFileMismatch : FileMismatchOptions
  legacyDataSourceFile : LegacyDataSourceFileOptions
  legacyGuideFile : LegacyGuideFileOptions
  legacyIndexFile : LegacyIndexFileOptions
  legacyResourceFile : LegacyResourceFileOptions
  providerName : String
  providerSource : String
  registryDataSourceFile : RegistryDataSourceFileOptions
  registryGuideFile : RegistryGuideFileOptions
  registryIndexFile : RegistryIndexFileOptions
  registryResourceFile : RegistryResourceFileOptions
  resourceFileMismatch : FileMismatchOptions
  ignoreCdktfMissingFiles : Bool
deriving DecidableEq

/-- The key set of an optional schema map. -/
def schemaKeys : Option (List (String × Schema)) → List String
  | none => []
  | some m => m.map Prod.fst

/-- Modelled from the spec: the File-Mismatch Reconciler of the external
`check` package (its `FileMismatchOptions` check, configured by `Run` at
check.go:231-237 and check.go:298-304 but implemented outside src/).
Per spec sections 4.3 and 8, the MismatchFile findings are the identifiers
present on disk but absent from the schema set, excluding the
mismatch-ignore list. -/
def fileMismatchFindings (opts : FileMismatchOptions) (disk : List String) :
    List String :=
  disk.filter fun id =>
    !((schemaKeys opts.schemas).contains id) && !(opts.ignoreFileMismatch.contains id)

/-- Modelled from the spec: the MissingFile side of the File-Mismatch
Reconciler (spec sections 4.3 and 8): identifiers present in the schema set
but absent on disk, excluding the missing-ignore list. -/
def missingFileFindings (opts : FileMismatchOptions) (disk : List String) :
    List String :=
  (schemaKeys opts.schemas).filter fun id =>
    !(disk.contains id) && !(opts.ignoreFileMissing.contains id)

/-- Outcome of opening and scanning one file, modelling `os.Open` plus a
`bufio.Scanner` loop: `openErr` is the `os.Open` error (if any),
`scannedLines` are the lines the scanner yields before it stops, and
`scanErr` is a read error that stopped the scanner mid-file (if any). -/
structure FileReadOutcome where
  openErr : Option String
  scannedLines : List String
  scanErr : Option String
deriving DecidableEq

/-- `allowedSubcategoriesFile` (check.go:320-342).  After a successful
`os.Open`, the scanner loop collects the scanned lines; the post-scan check
`if err != nil` (check.go:337) re-tests the `os.Open` error variable, which
is necessarily nil at that point, so the function returns the collected
lines with a nil error whatever stopped the scanner. -/
def allowedSubcategoriesFile (f : FileReadOutcome) (path : String) :
    Except String (List String) :=
  match f.openErr with
  | some e =>
    Except.error ("error opening allowed subcategories file (" ++ path ++ "): " ++ e)
  | none => Except.ok f.scannedLines

/-- The environment of effects consumed by `CheckCommand.Run`: each field
is the outcome the outside world would hand the corresponding Go call. -/
structure RunEnv where
  /-- `flags.Parse` outcome (check.go:107): the parsed configuration and the
  remaining positional arguments, or `none` on a parse error. -/
  parseResult : Option (CheckCommandConfig × List String)
  /-- `os.Getwd` (check.go:345). -/
  cwd : String
  /-- `check.GetDirectories` (check.go:139), by base path. -/
  getDirectories : String → Except String (List String)
  /-- File outcomes for `allowedSubcategoriesFile`, by path. -/
  readSubcatFile : String → FileReadOutcome
  /-- `os.ReadFile` (check.go:368), by path. -/
  readFile : String → Except String String
  /-- `json.Unmarshal` into `tfjson.ProviderSchemas` (check.go:376), by
  file content. -/
  jsonUnmarshal : String → Except String ProviderSchemas
  /-- `ps.Validate()` (check.go:380): a validation error or `none`. -/
  validate : ProviderSchemas → Option String
  /-- The external check engine beyond its configuration validation:
  the findings error of `check.NewCheck(opts).Run(directories)`
  (check.go:308) once its options are accepted, or `none` on success. -/
  engineOutcome : CheckOptions → List String → Option String

/-- `providerSchemas` (check.go:364-385): read, parse, validate; each
failure is wrapped in the corresponding error message. -/
def providerSchemas (env : RunEnv) (path : String) : Except String ProviderSchemas :=
  match env.readFile path with
  | Except.error e =>
    Except.error ("error reading providers schema JSON file (" ++ path ++ "): " ++ e)
  | Except.ok content =>
    match env.jsonUnmarshal content with
    | Except.error e =>
      Except.error ("error parsing providers schema JSON file (" ++ path ++ "): " ++ e)
    | Except.ok ps =>
      match env.validate ps with
      | some e =>
        Except.error ("error validating providers schema JSON file (" ++ path ++ "): " ++ e)
      | none => Except.ok ps

/-- The configuration `Run` works with after flag parsing: the positional
argument becomes the path when exactly one is given (check.go:114-116) and
the provider name is resolved (check.go:120-131).  `none` on a flag-parse
error. -/
def resolvedConfig (env : RunEnv) : Option CheckCommandConfig :=
  match env.parseResult with
  | none => none
  | some (cfg0, args) =>
    let cfg1 := if args.length = 1 then { cfg0 with path := args.getD 0 "" } else cfg0
    some { cfg1 with
      providerName :=
        deriveProviderName cfg1.providerName cfg1.providerSource cfg1.path env.cwd }

/-- The allowed-guide-subcategories resolution (check.go:156-169): the
comma flag list, replaced by the file contents when a file is given; a file
error is wrapped in the guide error message. -/
def allowedGuideStep (env : RunEnv) (cfg : CheckCommandConfig) :
    Except String (List String) :=
  let fromFlag := commaList cfg.allowedGuideSubcategories
  if cfg.allowedGuideSubcategoriesFile = "" then Except.ok fromFlag
  else
    match allowedSubcategoriesFile (env.readSubcatFile cfg.allowedGuideSubcategoriesFile)
        cfg.allowedGuideSubcategoriesFile with
    | Except.error e => Except.error ("Error getting allowed guide subcategories: " ++ e)
    | Except.ok lst => Except.ok lst

/-- The allowed-resource-subcategories resolution (check.go:171-184). -/
def allowedResourceStep (env : RunEnv) (cfg : CheckCommandConfig) :
    Except String (List String) :=
  let fromFlag := commaList cfg.allowedResourceSubcategories
  if cfg.allowedResourceSubcategoriesFile = "" then Except.ok fromFlag
  else
    match allowedSubcategoriesFile (env.readSubcatFile cfg.allowedResourceSubcategoriesFile)
        cfg.allowedResourceSubcategoriesFile with
    | Except.error e => Except.error ("Error getting allowed resource subcategories: " ++ e)
    | Except.ok lst => Except.ok lst

/-- The error message of check.go:216-218. -/
def unknownProviderNameMsg : String :=
  "Unknown provider name for enabling Terraform Provider schema checks."

/-- The schema section of `Run` (check.go:206-225): with no schema path the
two schema maps stay nil; otherwise the schema document is loaded (failure
is fatal), an unresolved provider name is fatal, and the two maps are
extracted with source-then-name lookup. -/
def schemaStep (env : RunEnv) (cfg : CheckCommandConfig) :
    Except String (Option (List (String × Schema)) × Option (List (String × Schema))) :=
  if cfg.providersSchemaJson = "" then Except.ok (none, none)
  else
    match providerSchemas env cfg.providersSchemaJson with
    | Except.error e =>
      Except.error ("Error enabling Terraform Provider schema checks: " ++ e)
    | Except.ok ps =>
      if cfg.providerName = "" then Except.error unknownProviderNameMsg
      else
        Except.ok
          (providerSchemasDataSources (some ps) cfg.providerName cfg.providerSource,
           providerSchemasResources (some ps) cfg.providerName cfg.providerSource)

/-- The `check.CheckOptions` literal of check.go:227-306, assembled from the
resolved configuration and the computed lists. -/
def buildCheckOptions (cfg : CheckCommandConfig)
    (allowedGuide allowedResource : List String)
    (schemaDataSources schemaResources : Option (List (String × Schema))) :
    CheckOptions :=
  let fileOpts : FileOptions := { basePath := cfg.path }
  { dataSourceFileMismatch :=
      { ignoreFileMismatch := commaList cfg.ignoreFileMismatchDataSources
        ignoreFileMissing := commaList cfg.ignoreFileMissingDataSources
        providerName := cfg.providerName
        resourceType := ResourceType.dataSource
        schemas := schemaDataSources }
    legacyDataSourceFile :=
      { fileOptions := fileOpts
        frontMatter :=
          { allowedSubcategories := allowedResource
            requireSubcategory := cfg.requireResourceSubcategory } }
    legacyGuideFile :=
      { fileOptions := fileOpts
        frontMatter :=
          { allowedSubcategories := allowedGuide
            requireSubcategory := cfg.requireGuideSubcategory } }
    legacyIndexFile := { fileOptions := fileOpts }
    legacyResourceFile :=
      { contents :=
          { enable := cfg.enableContentsCheck
            requireSchemaOrdering := cfg.requireSchemaOrdering }
        fileOptions := fileOpts
        frontMatter :=
          { allowedSubcategories := allowedResource
            requireSubcategory := cfg.requireResourceSubcategory }
        providerName := cfg.providerName }
    providerName := cfg.providerName
    providerSource := cfg.providerSource
    registryDataSourceFile :=
      { fileOptions := fileOpts
        frontMatter :=
          { allowedSubcategories := allowedResource
            requireSubcategory := cfg.requireResourceSubcategory } }
    registryGuideFile :=
      { fileOptions := fileOpts
        frontMatter :=
          { allowedSubcategories := allowedGuide
            requireSubcategory := cfg.requireGuideSubcategory } }
    registryIndexFile := { fileOptions := fileOpts }
    registryResourceFile :=
      { contents :=
          { enable := cfg.enableContentsCheck
            requireSchemaOrdering := cfg.requireSchemaOrdering }
        fileOptions := fileOpts
        frontMatter :=
          { allowedSubcategories := allowedResource
            requireSubcategory := cfg.requireResourceSubcategory }
        providerName := cfg.providerName }
    resourceFileMismatch :=
      { ignoreFileMismatch := commaList cfg.ignoreFileMismatchResources
        ignoreFileMissing := commaList cfg.ignoreFileMissingResources
        providerName := cfg.providerName
        resourceType := ResourceType.resource
        schemas := schemaResources }
    ignoreCdktfMissingFiles := cfg.ignoreCdktfMissingFiles }

/-- Modelled from the spec: `check.NewCheck(opts).Run(directories)` of the
external `check` package (invoked at check.go:308 but implemented outside
src/).  Per spec sections 4.5, 6 and 8 the engine must reject — fail fast,
never silently ignore — a configuration that enables schema ordering
without enabling contents checking; past that validation, the engine's
findings outcome is the abstract environment outcome. -/
def checkRun (env : RunEnv) (opts : CheckOptions) (dirs : List String) :
    Option String :=
  if (opts.legacyResourceFile.contents.requireSchemaOrdering &&
        !opts.legacyResourceFile.contents.enable) ||
     (opts.registryResourceFile.contents.requireSchemaOrdering &&
        !opts.registryResourceFile.contents.enable) then
    some "-require-schema-ordering requires -enable-contents-check"
  else env.engineOutcome opts dirs

/-- The observable outcome of one `Run` call: the returned exit value,
whether the check engine was invoked (check.go:308 reached), and the
messages passed to `c.Ui.Error`. -/
structure RunOutcome where
  exit : Nat
  engineInvoked : Bool
  errMsgs : List String
deriving DecidableEq

/-- `CheckCommand.Run` after configuration resolution (check.go:139-313):
directory enumeration, the empty-directory guard, the two
allowed-subcategory resolutions, the schema section, and the engine call. -/
def runWithConfig (env : RunEnv) (cfg : CheckCommandConfig) : RunOutcome :=
  match env.getDirectories cfg.path with
  | Except.error e =>
    { exit := 1, engineInvoked := false,
      errMsgs := ["Error getting Terraform Provider documentation directories: " ++ e] }
  | Except.ok directories =>
    if directories.isEmpty then
      { exit := 1, engineInvoked := false,
        errMsgs :=
          [if cfg.path = "" then
            "No Terraform Provider documentation directories found in current path"
          else
            "No Terraform Provider documentation directories found in path: " ++ cfg.path] }
    else
      match allowedGuideStep env cfg with
      | Except.error msg => { exit := 1, engineInvoked := false, errMsgs := [msg] }
      | Except.ok allowedGuide =>
        match allowedResourceStep env cfg with
        | Except.error msg => { exit := 1, engineInvoked := false, errMsgs := [msg] }
        | Except.ok allowedResource =>
          match schemaStep env cfg with
          | Except.error msg => { exit := 1, engineInvoked := false, errMsgs := [msg] }
          | Except.ok (schemaDataSources, schemaResources) =>
            let opts :=
              buildCheckOptions cfg allowedGuide allowedResource
                schemaDataSources schemaResources
            match checkRun env opts directories with
            | some e =>
              { exit := 1, engineInvoked := true,
                errMsgs := ["Error checking Terraform Provider documentation: " ++ e] }
            | none => { exit := 0, engineInvoked := true, errMsgs := [] }

/-- `CheckCommand.Run` (check.go:84-314).  A flag-parse error prints usage
(via `Ui.Info`, not `Ui.Error`) and returns 1. -/
def runCheck (env : RunEnv) : RunOutcome :=
  match resolvedConfig env with
  | none => { exit := 1, engineInvoked := false, errMsgs := [] }
  | some cfg => runWithConfig env cfg

/-- The failure conditions enumerated by the spec for a `Run` call:
flag-parse error, directory-enumeration error, empty directory list,
unreadable allowed-subcategory file (guide or resource), schema
load/parse/validate error, unresolved provider name with schema checks
requested, or a findings error from the check engine. -/
def RunFailure (env : RunEnv) : Prop :=
  resolvedConfig env = none ∨
  ∃ cfg, resolvedConfig env = some cfg ∧
    ((∃ e, env.getDirectories cfg.path = Except.error e) ∨
     env.getDirectories cfg.path = Except.ok [] ∨
     (∃ e, allowedGuideStep env cfg = Except.error e) ∨
     (∃ e, allowedResourceStep env cfg = Except.error e) ∨
     (cfg.providersSchemaJson ≠ "" ∧
       ∃ e, providerSchemas env cfg.providersSchemaJson = Except.error e) ∨
     (cfg.providersSchemaJson ≠ "" ∧ cfg.providerName = "") ∨
     (∃ directories allowedGuide allowedResource sds srs e,
       env.getDirectories cfg.path = Except.ok directories ∧
       allowedGuideStep env cfg = Except.ok allowedGuide ∧
       allowedResourceStep env cfg = Except.ok allowedResource ∧
       schemaStep env cfg = Except.ok (sds, srs) ∧
       checkRun env
         (buildCheckOptions cfg allowedGuide allowedResource sds srs)
         directories = some e))

/-- The provider-name derivation exactly as the claim words it (stated for
comparison with `deriveProviderName`, which embeds the source): with no
explicit name, the last '/'-separated segment of a non-empty provider
source, and only when the source is empty the basename convention on the
path or working directory. -/
def claimedProviderName (cfgName cfgSource cfgPath cwd : String) : String :=
  if cfgName ≠ "" then cfgName
  else if cfgSource ≠ "" then lastSegment cfgSource
  else if cfgPath = "" then providerNameFromPath cwd
  else providerNameFromPath cfgPath

/-- A zero-valued configuration, as flag parsing produces it when no flag
is set: every string option empty, every toggle false. -/
def cfgBase : CheckCommandConfig :=
  { allowedGuideSubcategories := ""
    allowedGuideSubcategoriesFile := ""
    allowedResourceSubcategories := ""
    allowedResourceSubcategoriesFile := ""
    enableContentsCheck := false
    ignoreCdktfMissingFiles := false
    ignoreFileMismatchDataSources := ""
    ignoreFileMismatchResources := ""
    ignoreFileMissingDataSources := ""
    ignoreFileMissingResources := ""
    path := ""
    providerName := ""
    providerSource := ""
    providersSchemaJson := ""
    requireGuideSubcategory := false
    requireResourceSubcategory := false
    requireSchemaOrdering := false }

/-- A fully successful environment: flag parsing yields the zero
configuration, the working directory follows the provider naming
convention, one documentation directory is found, reads succeed, the schema
document decodes to an empty schema map, and the engine finds nothing. -/
def envBase : RunEnv :=
  { parseResult := some (cfgBase, [])
    cwd := "/work/terraform-provider-test"
    getDirectories := fun _ => Except.ok ["docs"]
    readSubcatFile := fun _ => { openErr := none, scannedLines := [], scanErr := none }
    readFile := fun _ => Except.ok "schema document content"
    jsonUnmarshal := fun _ => Except.ok { schemas := some [] }
    validate := fun _ => none
    engineOutcome := fun _ _ => none }

/-- Concrete reconciler options: two schema identifiers, one
mismatch-ignored identifier, one missing-ignored identifier. -/
def fmOptsW : FileMismatchOptions :=
  { ignoreFileMismatch := ["gamma"]
    ignoreFileMissing := ["beta"]
    providerName := "test"
    resourceType := ResourceType.dataSource
    schemas := some [("alpha", { version := 0 }), ("beta", { version := 0 })] }

/-- `fmOptsW` with its schema map enumerated in the opposite order. -/
def fmOptsW2 : FileMismatchOptions :=
  { fmOptsW with
    schemas := some [("beta", { version := 0 }), ("alpha", { version := 0 })] }

/-- A concrete provider entry with one data source and one resource. -/
def psEntryW : ProviderSchema :=
  { dataSourceSchemas := some [("test_thing", { version := 1 })]
    resourceSchemas := some [("test_widget", { version := 2 })] }

/-- A concrete schema document holding `psEntryW` under a fully-qualified
source address. -/
def psW : ProviderSchemas :=
  { schemas := some [("registry.terraform.io/hashicorp/test", psEntryW)] }

/-- A successful file-read outcome whose scanner nevertheless stopped on a
mid-file read failure after two lines. -/
def fileOutcomeW : FileReadOutcome :=
  { openErr := none
    scannedLines := ["Compute", "Storage"]
    scanErr := some "unexpected read failure" }

/-- Environment for the unresolved-provider-name case: a schema path is
configured but neither name, source, path nor working directory determines
a provider name. -/
def envC5 : RunEnv :=
  { envBase with
    parseResult := some ({ cfgBase with providersSchemaJson := "schema.json" }, [])
    cwd := "/app" }

/-- The configuration `envC5` resolves to. -/
def cfgC5 : CheckCommandConfig := { cfgBase with providersSchemaJson := "schema.json" }

/-- Environment for the unreadable-schema case: a schema path is configured
and reading it fails. -/
def envC6 : RunEnv :=
  { envBase with
    parseResult := some ({ cfgBase with providersSchemaJson := "schema.json" }, [])
    readFile := fun _ => Except.error "permission denied" }

/-- The configuration `envC6` resolves to (name derived from the working
directory). -/
def cfgC6 : CheckCommandConfig :=
  { cfgBase with providersSchemaJson := "schema.json", providerName := "test" }

/-- Environment enabling schema ordering without the contents check. -/
def envC7 : RunEnv :=
  { envBase with
    parseResult := some ({ cfgBase with requireSchemaOrdering := true }, []) }

/-- The configuration `envC7` resolves to. -/
def cfgC7 : CheckCommandConfig :=
  { cfgBase with requireSchemaOrdering := true, providerName := "test" }

/-- Environment whose schema document holds only an unrelated provider:
neither the configured source nor the derived name occurs in it. -/
def envC8 : RunEnv :=
  { envBase with
    parseResult := some
      ({ cfgBase with
          providersSchemaJson := "schema.json"
          providerSource := "registry.terraform.io/hashicorp/test" }, [])
    jsonUnmarshal := fun _ =>
      Except.ok { schemas := some [("registry.terraform.io/hashicorp/other", psEntryW)] } }

/-- The configuration `envC8` resolves to (name derived from the source's
last segment). -/
def cfgC8 : CheckCommandConfig :=
  { cfgBase with
    providersSchemaJson := "schema.json"
    providerSource := "registry.terraform.io/hashicorp/test"
    providerName := "test" }

/-- Environment whose directory enumeration succeeds with no directory. -/
def envC9 : RunEnv :=
  { envBase with getDirectories := fun _ => Except.ok [] }

/-- The configuration `envC9` resolves to. -/
def cfgC9 : CheckCommandConfig := { cfgBase with providerName := "test" }

/-! ## Theorems -/

theorem mem_fileMismatchFindings (opts : FileMismatchOptions) (disk : List String)
    (a : String) :
    a ∈ fileMismatchFindings opts disk ↔
      a ∈ disk ∧ a ∉ schemaKeys opts.schemas ∧ a ∉ opts.ignoreFileMismatch := by
  simp [fileMismatchFindings, List.mem_filter, List.elem_iff]

theorem mem_missingFileFindings (opts : FileMismatchOptions) (disk : List String)
    (a : String) :
    a ∈ missingFileFindings opts disk ↔
      a ∈ schemaKeys opts.schemas ∧ a ∉ disk ∧ a ∉ opts.ignoreFileMissing := by
  simp [missingFileFindings, List.mem_filter, List.elem_iff]

theorem fileMismatchFindings_toFinset (opts : FileMismatchOptions) (disk : List String) :
    (fileMismatchFindings opts disk).toFinset =
      (disk.toFinset \ (schemaKeys opts.schemas).toFinset) \
        opts.ignoreFileMismatch.toFinset := by
  ext a
  simp [mem_fileMismatchFindings, Finset.mem_sdiff, List.mem_toFinset]
  tauto

theorem missingFileFindings_toFinset (opts : FileMismatchOptions) (disk : List String) :
    (missingFileFindings opts disk).toFinset =
      ((schemaKeys opts.schemas).toFinset \ disk.toFinset) \
        opts.ignoreFileMissing.toFinset := by
  ext a
  simp [mem_missingFileFindings, Finset.mem_sdiff, List.mem_toFinset]
  tauto

/-- Claim C1: for every on-disk identifier set D, schema identifier set S,
mismatch-ignore set Im and missing-ignore set Ii handed to the
file-mismatch reconciliation configured by `Run`, the MismatchFile findings
equal (D \ S) \ Im and the MissingFile findings equal (S \ D) \ Ii, and
both are independent of the enumeration order of D and S. -/
theorem check_file_mismatch_reconciliation_sets
    (opts : FileMismatchOptions) (disk : List String) :
    (fileMismatchFindings opts disk).toFinset =
      (disk.toFinset \ (schemaKeys opts.schemas).toFinset) \
        opts.ignoreFileMismatch.toFinset ∧
    (missingFileFindings opts disk).toFinset =
      ((schemaKeys opts.schemas).toFinset \ disk.toFinset) \
        opts.ignoreFileMissing.toFinset ∧
    (∀ (disk2 : List String) (opts2 : FileMismatchOptions),
      disk2.toFinset = disk.toFinset →
      (schemaKeys opts2.schemas).toFinset = (schemaKeys opts.schemas).toFinset →
      opts2.ignoreFileMismatch = opts.ignoreFileMismatch →
      opts2.ignoreFileMissing = opts.ignoreFileMissing →
      (fileMismatchFindings opts2 disk2).toFinset =
        (fileMismatchFindings opts disk).toFinset ∧
      (missingFileFindings opts2 disk2).toFinset =
        (missingFileFindings opts disk).toFinset) := by
  refine ⟨fileMismatchFindings_toFinset opts disk,
    missingFileFindings_toFinset opts disk, ?_⟩
  intro disk2 opts2 h1 h2 h3 h4
  rw [fileMismatchFindings_toFinset, fileMismatchFindings_toFinset,
    missingFileFindings_toFinset, missingFileFindings_toFinset, h1, h2, h3, h4]
  exact ⟨rfl, rfl⟩

/-- Witness for C1: the reconciler applied to concrete sets, and to the
same sets enumerated in a different order, produces the same finding
sets. -/
theorem check_file_mismatch_reconciliation_sets_witness :
    (fileMismatchFindings fmOptsW2 ["delta", "gamma", "alpha"]).toFinset =
      (fileMismatchFindings fmOptsW ["alpha", "gamma", "delta"]).toFinset ∧
    (missingFileFindings fmOptsW2 ["delta", "gamma", "alpha"]).toFinset =
      (missingFileFindings fmOptsW ["alpha", "gamma", "delta"]).toFinset :=
  (check_file_mismatch_reconciliation_sets fmOptsW ["alpha", "gamma", "delta"]).2.2
    ["delta", "gamma", "alpha"] fmOptsW2 (by decide) (by decide) rfl rfl

/-- Claim C3: for every parsed provider-schemas structure with a non-nil
schema map, `providerSchemasDataSources` and `providerSchemasResources`
look up the fully-qualified provider source key first and consult the bare
provider name key exactly when the source key is absent. -/
theorem provider_schema_lookup_fallback (ps : ProviderSchemas)
    (m : List (String × ProviderSchema)) (name source : String)
    (hm : ps.schemas = some m) :
    (∀ p, lookupAssoc m source = some p →
      providerSchemasDataSources (some ps) name source = p.dataSourceSchemas ∧
      providerSchemasResources (some ps) name source = p.resourceSchemas) ∧
    (lookupAssoc m source = none →
      providerSchemasDataSources (some ps) name source =
        (match lookupAssoc m name with
          | some p => p.dataSourceSchemas
          | none => none) ∧
      providerSchemasResources (some ps) name source =
        (match lookupAssoc m name with
          | some p => p.resourceSchemas
          | none => none)) := by
  constructor
  · intro p hp
    constructor
    · simp [providerSchemasDataSources, hm, hp]
    · simp [providerSchemasResources, hm, hp]
  · intro hnone
    constructor
    · simp [providerSchemasDataSources, hm, hnone]
    · simp [providerSchemasResources, hm, hnone]

/-- Witness for C3: with the source address present in the schema map, both
lookups return that provider's maps. -/
theorem provider_schema_lookup_fallback_witness :
    providerSchemasDataSources (some psW) "test" "registry.terraform.io/hashicorp/test" =
      psEntryW.dataSourceSchemas ∧
    providerSchemasResources (some psW) "test" "registry.terraform.io/hashicorp/test" =
      psEntryW.resourceSchemas :=
  (provider_schema_lookup_fallback psW
      [("registry.terraform.io/hashicorp/test", psEntryW)]
      "test" "registry.terraform.io/hashicorp/test" rfl).1 psEntryW (by decide)

/-- Claim C10: for every file path that opens successfully,
`allowedSubcategoriesFile` returns a nil error unconditionally — the
post-scan error check re-tests the already-nil open error rather than the
scanner's error, so a mid-file read failure yields the lines read so far
with no error. -/
theorem allowed_subcategories_scan_error_ignored (f : FileReadOutcome) (path : String)
    (hopen : f.openErr = none) :
    allowedSubcategoriesFile f path = Except.ok f.scannedLines := by
  simp [allowedSubcategoriesFile, hopen]

/-- Witness for C10: a scan stopped by a read failure after two lines still
reports those two lines with no error. -/
theorem allowed_subcategories_scan_error_ignored_witness :
    allowedSubcategoriesFile fileOutcomeW "subcategories.txt" =
      Except.ok ["Compute", "Storage"] :=
  allowed_subcategories_scan_error_ignored fileOutcomeW "subcategories.txt" rfl

/-- Counterexample to claim C4 as stated: with no explicit name, a
non-empty provider source "hashicorp/" whose last '/'-separated segment is
empty, and path "terraform-provider-aws", the claim's rule yields the empty
name (the last segment of the source), but the code falls through to the
path-based derivation and yields "aws". -/
theorem provider_name_derivation_counterexample :
    deriveProviderName "" "hashicorp/" "terraform-provider-aws" "/tmp" = "aws" ∧
    claimedProviderName "" "hashicorp/" "terraform-provider-aws" "/tmp" = "" ∧
    deriveProviderName "" "hashicorp/" "terraform-provider-aws" "/tmp" ≠
      claimedProviderName "" "hashicorp/" "terraform-provider-aws" "/tmp" := by
  decide

/-- Claim C4 (amended): when no explicit provider name is configured, `Run`
derives it as the last '/'-separated segment of a non-empty providerSource
when that segment is non-empty; otherwise (providerSource empty, or its
last segment empty) it derives it from the basename of the given path (or
of the working directory when no path is given), yielding the suffix after
the "terraform-provider-" prefix, and yielding no name when that prefix is
absent or the basename contains a '.' or '/'. -/
theorem provider_name_derivation_amended (cfgName cfgSource cfgPath cwd : String)
    (hname : cfgName = "") :
    (cfgSource ≠ "" → lastSegment cfgSource ≠ "" →
      deriveProviderName cfgName cfgSource cfgPath cwd = lastSegment cfgSource) ∧
    (cfgSource = "" ∨ lastSegment cfgSource = "" →
      deriveProviderName cfgName cfgSource cfgPath cwd =
        providerNameFromPath (if cfgPath = "" then cwd else cfgPath)) ∧
    (∀ p rest, (goFilepathBase p).data = "terraform-provider-".data ++ rest →
      ('.' ∉ (goFilepathBase p).data ∧ '/' ∉ (goFilepathBase p).data) →
      providerNameFromPath p = String.mk rest) ∧
    (∀ p, ('.' ∈ (goFilepathBase p).data ∨ '/' ∈ (goFilepathBase p).data ∨
        ¬ ∃ rest, (goFilepathBase p).data = "terraform-provider-".data ++ rest) →
      providerNameFromPath p = "") := by
  subst hname
  refine ⟨?_, ?_, ?_, ?_⟩
  · intro hsrc hlast
    simp [deriveProviderName, hsrc, hlast]
  · intro h
    rcases h with h | h
    · subst h
      by_cases hp : cfgPath = "" <;> simp [deriveProviderName, hp]
    · by_cases hsrc : cfgSource = ""
      · subst hsrc
        by_cases hp : cfgPath = "" <;> simp [deriveProviderName, hp]
      · by_cases hp : cfgPath = "" <;> simp [deriveProviderName, hsrc, h, hp]
  · intro p rest hbase hmem
    have hdot : (goFilepathBase p).data.any (fun c => c = '.' || c = '/') = false := by
      rw [List.any_eq_false]
      intro c hc
      simp only [Bool.or_eq_true, decide_eq_true_eq, not_or]
      exact ⟨fun h => hmem.1 (h ▸ hc), fun h => hmem.2 (h ▸ hc)⟩
    have hpre : "terraform-provider-".data.isPrefixOf (goFilepathBase p).data = true := by
      rw [ List.isPrefixOf_iff_prefix]
      exact ⟨rest, hbase.symm⟩
    simp only [providerNameFromPath, hdot, hpre, if_true, Bool.false_eq_true, if_false]
    congr 1
    rw [hbase]
    exact List.drop_left _ _
  · intro p h
    simp only [providerNameFromPath]
    by_cases hdot : (goFilepathBase p).data.any (fun c => c = '.' || c = '/') = true
    · simp [hdot]
    · have hnp : ¬ ∃ rest, (goFilepathBase p).data = "terraform-provider-".data ++ rest := by
        rcases h with h | h | h
        · exact absurd (List.any_eq_true.mpr ⟨'.', h, by simp⟩) hdot
        · exact absurd (List.any_eq_true.mpr ⟨'/', h, by simp⟩) hdot
        · exact h
      have hpre : "terraform-provider-".data.isPrefixOf (goFilepathBase p).data = false := by
        rw [Bool.eq_false_iff]
        intro hc
        rw [ List.isPrefixOf_iff_prefix] at hc
        rcases hc with ⟨rest, hr⟩
        exact hnp ⟨rest, hr.symm⟩
      simp [hdot, hpre]

/-- Witness for the amended C4: the source-segment rule on
"hashicorp/aws", the fallthrough on "hashicorp/", and the basename
convention on "/work/terraform-provider-test". -/
theorem provider_name_derivation_amended_witness :
    deriveProviderName "" "hashicorp/aws" "p" "/tmp" = lastSegment "hashicorp/aws" ∧
    deriveProviderName "" "hashicorp/" "" "/work/terraform-provider-test" =
      providerNameFromPath (if ("" : String) = "" then "/work/terraform-provider-test" else "") ∧
    providerNameFromPath "/work/terraform-provider-test" = String.mk "test".data :=
  ⟨(provider_name_derivation_amended "" "hashicorp/aws" "p" "/tmp" rfl).1
      (by decide) (by decide),
   (provider_name_derivation_amended "" "hashicorp/" "" "/work/terraform-provider-test" rfl).2.1
      (Or.inr (by decide)),
   (provider_name_derivation_amended "" "" "" "" rfl).2.2.1
      "/work/terraform-provider-test" "test".data (by decide) (by decide)⟩

theorem schemaStep_error_of_load_error (env : RunEnv) (cfg : CheckCommandConfig)
    (e : String) (hjson : cfg.providersSchemaJson ≠ "")
    (he : providerSchemas env cfg.providersSchemaJson = Except.error e) :
    schemaStep env cfg =
      Except.error ("Error enabling Terraform Provider schema checks: " ++ e) := by
  simp [schemaStep, hjson, he]

theorem schemaStep_error_of_no_name (env : RunEnv) (cfg : CheckCommandConfig)
    (hjson : cfg.providersSchemaJson ≠ "") (hname : cfg.providerName = "") :
    ∃ msg, schemaStep env cfg = Except.error msg := by
  cases hps : providerSchemas env cfg.providersSchemaJson with
  | error e =>
    exact ⟨_, schemaStep_error_of_load_error env cfg e hjson hps⟩
  | ok ps =>
    refine ⟨unknownProviderNameMsg, ?_⟩
    simp [schemaStep, hjson, hps, hname]

theorem runWithConfig_no_engine_of_schema_error (env : RunEnv)
    (cfg : CheckCommandConfig) (msg : String)
    (h : schemaStep env cfg = Except.error msg) :
    (runWithConfig env cfg).exit = 1 ∧ (runWithConfig env cfg).engineInvoked = false := by
  cases hd : env.getDirectories cfg.path with
  | error e => simp [runWithConfig, hd]
  | ok dirs =>
    by_cases hde : dirs.isEmpty
    · simp [runWithConfig, hd, hde]
    · cases hg : allowedGuideStep env cfg with
      | error m => simp [runWithConfig, hd, hde, hg]
      | ok ag =>
        cases hr : allowedResourceStep env cfg with
        | error m => simp [runWithConfig, hd, hde, hg, hr]
        | ok ar => simp [runWithConfig, hd, hde, hg, hr, h]

/-- Claim C5: whenever a providers-schema JSON path is supplied and the
provider name cannot be resolved, the run fails with the configuration
error and result 1 before the check engine processes any directory. -/
theorem schema_checks_unresolved_provider_fatal (env : RunEnv)
    (cfg : CheckCommandConfig) (hc : resolvedConfig env = some cfg)
    (hjson : cfg.providersSchemaJson ≠ "") (hname : cfg.providerName = "") :
    (runCheck env).exit = 1 ∧ (runCheck env).engineInvoked = false ∧
    (∀ directories ps, env.getDirectories cfg.path = Except.ok directories →
      directories ≠ [] →
      (∃ ag, allowedGuideStep env cfg = Except.ok ag) →
      (∃ ar, allowedResourceStep env cfg = Except.ok ar) →
      providerSchemas env cfg.providersSchemaJson = Except.ok ps →
      (runCheck env).errMsgs = [unknownProviderNameMsg]) := by
  obtain ⟨msg, hs⟩ := schemaStep_error_of_no_name env cfg hjson hname
  have hrun : runCheck env = runWithConfig env cfg := by
    simp [runCheck, hc]
  have hmain := runWithConfig_no_engine_of_schema_error env cfg msg hs
  refine ⟨hrun ▸ hmain.1, hrun ▸ hmain.2, ?_⟩
  intro directories ps hd hne ⟨ag, hg⟩ ⟨ar, hr⟩ hps
  have hde : directories.isEmpty = false := by
    cases directories
    · exact absurd rfl hne
    · rfl
  have hs2 : schemaStep env cfg = Except.error unknownProviderNameMsg := by
    simp [schemaStep, hjson, hps, hname]
  rw [hrun]
  simp [runWithConfig, hd, hde, hg, hr, hs2]

/-- Witness for C5: a configured schema path with no resolvable provider
name yields result 1, no engine invocation, and the configuration error. -/
theorem schema_checks_unresolved_provider_fatal_witness :
    (runCheck envC5).exit = 1 ∧ (runCheck envC5).engineInvoked = false ∧
    (∀ directories ps, envC5.getDirectories cfgC5.path = Except.ok directories →
      directories ≠ [] →
      (∃ ag, allowedGuideStep envC5 cfgC5 = Except.ok ag) →
      (∃ ar, allowedResourceStep envC5 cfgC5 = Except.ok ar) →
      providerSchemas envC5 cfgC5.providersSchemaJson = Except.ok ps →
      (runCheck envC5).errMsgs = [unknownProviderNameMsg]) :=
  schema_checks_unresolved_provider_fatal envC5 cfgC5 (by decide) (by decide) (by decide)

/-- Claim C6: every schema JSON path whose read, parse, or validation fails
makes `providerSchemas` return an error, and `Run` then terminates with
result 1 before invoking the check engine. -/
theorem provider_schemas_load_errors_fatal :
    (∀ env path e, env.readFile path = Except.error e →
      providerSchemas env path =
        Except.error ("error reading providers schema JSON file (" ++ path ++ "): " ++ e)) ∧
    (∀ env path content e, env.readFile path = Except.ok content →
      env.jsonUnmarshal content = Except.error e →
      providerSchemas env path =
        Except.error ("error parsing providers schema JSON file (" ++ path ++ "): " ++ e)) ∧
    (∀ env path content ps e, env.readFile path = Except.ok content →
      env.jsonUnmarshal content = Except.ok ps → env.validate ps = some e →
      providerSchemas env path =
        Except.error ("error validating providers schema JSON file (" ++ path ++ "): " ++ e)) ∧
    (∀ env cfg e, resolvedConfig env = some cfg → cfg.providersSchemaJson ≠ "" →
      providerSchemas env cfg.providersSchemaJson = Except.error e →
      (runCheck env).exit = 1 ∧ (runCheck env).engineInvoked = false) := by
  refine ⟨?_, ?_, ?_, ?_⟩
  · intro env path e he
    simp [providerSchemas, he]
  · intro env path content e hr hu
    simp [providerSchemas, hr, hu]
  · intro env path content ps e hr hu hv
    simp [providerSchemas, hr, hu, hv]
  · intro env cfg e hc hjson he
    have hrun : runCheck env = runWithConfig env cfg := by
      simp [runCheck, hc]
    have := runWithConfig_no_engine_of_schema_error env cfg _
      (schemaStep_error_of_load_error env cfg e hjson he)
    exact ⟨hrun ▸ this.1, hrun ▸ this.2⟩

/-- Witness for C6: an unreadable schema file produces the read error and a
fatal run without engine invocation. -/
theorem provider_schemas_load_errors_fatal_witness :
    providerSchemas envC6 "schema.json" =
      Except.error
        ("error reading providers schema JSON file (schema.json): permission denied") ∧
    (runCheck envC6).exit = 1 ∧ (runCheck envC6).engineInvoked = false :=
  ⟨provider_schemas_load_errors_fatal.1 envC6 "schema.json" "permission denied" rfl,
   provider_schemas_load_errors_fatal.2.2.2 envC6 cfgC6
      ("error reading providers schema JSON file (schema.json): permission denied")
      (by decide) (by decide) rfl⟩

/-- Claim C9: when directory enumeration succeeds with an empty list, `Run`
reports the no-directories error and returns 1 without invoking the check
engine. -/
theorem empty_directory_list_fatal (env : RunEnv) (cfg : CheckCommandConfig)
    (hc : resolvedConfig env = some cfg)
    (hd : env.getDirectories cfg.path = Except.ok []) :
    (runCheck env).exit = 1 ∧ (runCheck env).engineInvoked = false ∧
    (runCheck env).errMsgs =
      [if cfg.path = "" then
        "No Terraform Provider documentation directories found in current path"
      else
        "No Terraform Provider documentation directories found in path: " ++ cfg.path] := by
  have hrun : runCheck env = runWithConfig env cfg := by
    simp [runCheck, hc]
  rw [hrun]
  simp [runWithConfig, hd]

/-- Witness for C9: an empty enumeration yields result 1, no engine
invocation, and the current-path error message. -/
theorem empty_directory_list_fatal_witness :
    (runCheck envC9).exit = 1 ∧ (runCheck envC9).engineInvoked = false ∧
    (runCheck envC9).errMsgs =
      [if cfgC9.path = "" then
        "No Terraform Provider documentation directories found in current path"
      else
        "No Terraform Provider documentation directories found in path: " ++ cfgC9.path] :=
  empty_directory_list_fatal envC9 cfgC9 (by decide) rfl

/-- Claim C7: every configuration with schema ordering required but
contents checking disabled makes the run fail with result 1; the ordering
rule is never silently ignored. -/
theorem schema_ordering_without_contents_fails (env : RunEnv)
    (cfg : CheckCommandConfig) (hc : resolvedConfig env = some cfg)
    (hord : cfg.requireSchemaOrdering = true)
    (hcont : cfg.enableContentsCheck = false) :
    (runCheck env).exit = 1 := by
  have hrun : runCheck env = runWithConfig env cfg := by
    simp [runCheck, hc]
  rw [hrun]
  cases hd : env.getDirectories cfg.path with
  | error e => simp [runWithConfig, hd]
  | ok dirs =>
    by_cases hde : dirs.isEmpty
    · simp [runWithConfig, hd, hde]
    · cases hg : allowedGuideStep env cfg with
      | error m => simp [runWithConfig, hd, hde, hg]
      | ok ag =>
        cases hr : allowedResourceStep env cfg with
        | error m => simp [runWithConfig, hd, hde, hg, hr]
        | ok ar =>
          cases hs : schemaStep env cfg with
          | error m => simp [runWithConfig, hd, hde, hg, hr, hs]
          | ok maps =>
            obtain ⟨sds, srs⟩ := maps
            simp [runWithConfig, hd, hde, hg, hr, hs, checkRun,
              buildCheckOptions, hord, hcont]

/-- Witness for C7: a run that would otherwise succeed still returns 1 when
ordering is required without the contents check. -/
theorem schema_ordering_without_contents_fails_witness :
    (runCheck envC7).exit = 1 :=
  schema_ordering_without_contents_fails envC7 cfgC7 (by decide) (by decide) (by decide)

theorem schemaStep_error_inv (env : RunEnv) (cfg : CheckCommandConfig) (msg : String)
    (h : schemaStep env cfg = Except.error msg) :
    cfg.providersSchemaJson ≠ "" ∧
    ((∃ e, providerSchemas env cfg.providersSchemaJson = Except.error e) ∨
      cfg.providerName = "") := by
  by_cases hjson : cfg.providersSchemaJson = ""
  · simp [schemaStep, hjson] at h
  · refine ⟨hjson, ?_⟩
    cases hps : providerSchemas env cfg.providersSchemaJson with
    | error e => exact Or.inl ⟨e, rfl⟩
    | ok ps =>
      by_cases hname : cfg.providerName = ""
      · exact Or.inr hname
      · simp [schemaStep, hjson, hps, hname] at h

/-- Claim C8: when the schema document loads and validates but its schema
map contains neither the provider source key nor the provider name key,
both lookup helpers return nil, and `Run` proceeds to invoke the check
engine with nil schema maps instead of failing the run. -/
theorem absent_provider_schema_degrades (env : RunEnv) (cfg : CheckCommandConfig)
    (ps : ProviderSchemas) (m : List (String × ProviderSchema))
    (directories ag ar : List String)
    (hc : resolvedConfig env = some cfg)
    (hd : env.getDirectories cfg.path = Except.ok directories)
    (hne : directories ≠ [])
    (hg : allowedGuideStep env cfg = Except.ok ag)
    (hr : allowedResourceStep env cfg = Except.ok ar)
    (hjson : cfg.providersSchemaJson ≠ "")
    (hps : providerSchemas env cfg.providersSchemaJson = Except.ok ps)
    (hname : cfg.providerName ≠ "")
    (hm : ps.schemas = some m)
    (hsrc : lookupAssoc m cfg.providerSource = none)
    (hn : lookupAssoc m cfg.providerName = none) :
    providerSchemasDataSources (some ps) cfg.providerName cfg.providerSource = none ∧
    providerSchemasResources (some ps) cfg.providerName cfg.providerSource = none ∧
    (runCheck env).engineInvoked = true := by
  have hds :
      providerSchemasDataSources (some ps) cfg.providerName cfg.providerSource = none := by
    simp [providerSchemasDataSources, hm, hsrc, hn]
  have hrs :
      providerSchemasResources (some ps) cfg.providerName cfg.providerSource = none := by
    simp [providerSchemasResources, hm, hsrc, hn]
  have hs : schemaStep env cfg = Except.ok (none, none) := by
    simp [schemaStep, hjson, hps, hname, hds, hrs]
  have hde : directories.isEmpty = false := by
    cases directories
    · exact absurd rfl hne
    · rfl
  have hrun : runCheck env = runWithConfig env cfg := by
    simp [runCheck, hc]
  refine ⟨hds, hrs, ?_⟩
  rw [hrun]
  cases hcr : checkRun env (buildCheckOptions cfg ag ar none none) directories with
  | none => simp [runWithConfig, hd, hde, hg, hr, hs, hcr]
  | some e => simp [runWithConfig, hd, hde, hg, hr, hs, hcr]

/-- Witness for C8: a schema document holding only an unrelated provider
leaves both schema maps nil and the engine still runs. -/
theorem absent_provider_schema_degrades_witness :
    providerSchemasDataSources
      (some { schemas := some [("registry.terraform.io/hashicorp/other", psEntryW)] })
      cfgC8.providerName cfgC8.providerSource = none ∧
    providerSchemasResources
      (some { schemas := some [("registry.terraform.io/hashicorp/other", psEntryW)] })
      cfgC8.providerName cfgC8.providerSource = none ∧
    (runCheck envC8).engineInvoked = true :=
  absent_provider_schema_degrades envC8 cfgC8
    { schemas := some [("registry.terraform.io/hashicorp/other", psEntryW)] }
    [("registry.terraform.io/hashicorp/other", psEntryW)]
    ["docs"] [] []
    (by decide) rfl (by decide) rfl rfl (by decide) rfl (by decide) rfl
    (by decide) (by decide)

/-- Claim C2: `CheckCommand.Run` returns only the values 0 and 1, and
returns 0 if and only if no failure occurred: flag-parse errors,
directory-enumeration errors, an empty directory list, unreadable
allowed-subcategory files, schema load/parse/validate errors, an
unresolvable provider name with schema checks requested, and any finding
reported by the check engine all yield 1. -/
theorem check_run_exit_code_semantics (env : RunEnv) :
    ((runCheck env).exit = 0 ∨ (runCheck env).exit = 1) ∧
    ((runCheck env).exit = 0 ↔ ¬ RunFailure env) := by
  cases hc : resolvedConfig env with
  | none =>
    have ho : runCheck env = { exit := 1, engineInvoked := false, errMsgs := [] } := by
      simp [runCheck, hc]
    rw [ho]
    exact ⟨Or.inr rfl, iff_of_false (by simp) (not_not_intro (Or.inl hc))⟩
  | some cfg =>
    have hrun : runCheck env = runWithConfig env cfg := by
      simp [runCheck, hc]
    rw [hrun]
    cases hd : env.getDirectories cfg.path with
    | error e =>
      have ho : runWithConfig env cfg =
          { exit := 1, engineInvoked := false,
            errMsgs :=
              ["Error getting Terraform Provider documentation directories: " ++ e] } := by
        simp [runWithConfig, hd]
      rw [ho]
      exact ⟨Or.inr rfl,
        iff_of_false (by simp)
          (not_not_intro (Or.inr ⟨cfg, hc, Or.inl ⟨e, hd⟩⟩))⟩
    | ok directories =>
      by_cases hde : directories.isEmpty
      · have hnil : directories = [] := by
          cases directories
          · rfl
          · simp [List.isEmpty] at hde
        have ho : runWithConfig env cfg =
            { exit := 1, engineInvoked := false,
              errMsgs :=
                [if cfg.path = "" then
                  "No Terraform Provider documentation directories found in current path"
                else
                  "No Terraform Provider documentation directories found in path: " ++
                    cfg.path] } := by
          simp [runWithConfig, hd, hde]
        rw [ho]
        exact ⟨Or.inr rfl,
          iff_of_false (by simp)
            (not_not_intro
              (Or.inr ⟨cfg, hc, Or.inr (Or.inl (by rw [hd, hnil]))⟩))⟩
      · cases hg : allowedGuideStep env cfg with
        | error m =>
          have ho : runWithConfig env cfg =
              { exit := 1, engineInvoked := false, errMsgs := [m] } := by
            simp [runWithConfig, hd, hde, hg]
          rw [ho]
          exact ⟨Or.inr rfl,
            iff_of_false (by simp)
              (not_not_intro
                (Or.inr ⟨cfg, hc, Or.inr (Or.inr (Or.inl ⟨m, hg⟩))⟩))⟩
        | ok ag =>
          cases hr : allowedResourceStep env cfg with
          | error m =>
            have ho : runWithConfig env cfg =
                { exit := 1, engineInvoked := false, errMsgs := [m] } := by
              simp [runWithConfig, hd, hde, hg, hr]
            rw [ho]
            exact ⟨Or.inr rfl,
              iff_of_false (by simp)
                (not_not_intro
                  (Or.inr ⟨cfg, hc, Or.inr (Or.inr (Or.inr (Or.inl ⟨m, hr⟩)))⟩))⟩
          | ok ar =>
            cases hs : schemaStep env cfg with
            | error msg =>
              have ho : runWithConfig env cfg =
                  { exit := 1, engineInvoked := false, errMsgs := [msg] } := by
                simp [runWithConfig, hd, hde, hg, hr, hs]
              rw [ho]
              have hinv := schemaStep_error_inv env cfg msg hs
              refine ⟨Or.inr rfl,
                iff_of_false (by simp)
                  (not_not_intro (Or.inr ⟨cfg, hc, ?_⟩))⟩
              rcases hinv.2 with he | hn
              · exact Or.inr (Or.inr (Or.inr (Or.inr (Or.inl ⟨hinv.1, he⟩))))
              · exact Or.inr (Or.inr (Or.inr (Or.inr (Or.inr (Or.inl ⟨hinv.1, hn⟩)))))
            | ok maps =>
              obtain ⟨sds, srs⟩ := maps
              cases hcr : checkRun env (buildCheckOptions cfg ag ar sds srs) directories with
              | some e =>
                have ho : runWithConfig env cfg =
                    { exit := 1, engineInvoked := true,
                      errMsgs :=
                        ["Error checking Terraform Provider documentation: " ++ e] } := by
                  simp [runWithConfig, hd, hde, hg, hr, hs, hcr]
                rw [ho]
                exact ⟨Or.inr rfl,
                  iff_of_false (by simp)
                    (not_not_intro
                      (Or.inr ⟨cfg, hc,
                        Or.inr (Or.inr (Or.inr (Or.inr (Or.inr (Or.inr
                          ⟨directories, ag, ar, sds, srs, e,
                            hd, hg, hr, hs, hcr⟩)))))⟩))⟩
              | none =>
                have ho : runWithConfig env cfg =
                    { exit := 0, engineInvoked := true, errMsgs := [] } := by
                  simp [runWithConfig, hd, hde, hg, hr, hs, hcr]
                rw [ho]
                refine ⟨Or.inl rfl, iff_of_true rfl ?_⟩
                intro hf
                rcases hf with hf | ⟨cfg2, hc2, hf⟩
                · rw [hc] at hf
                  cases hf
                · rw [hc] at hc2
                  injection hc2 with hcfg
                  subst hcfg
                  rcases hf with ⟨e, hf⟩ | hf | ⟨m, hf⟩ | ⟨m, hf⟩ |
                    ⟨hjson, e, hf⟩ | ⟨hjson, hn⟩ |
                    ⟨d2, ag2, ar2, sds2, srs2, e2, hd2, hg2, hr2, hs2, hcr2⟩
                  · rw [hd] at hf
                    cases hf
                  · rw [hd] at hf
                    injection hf with hnil
                    rw [hnil] at hde
                    exact hde rfl
                  · rw [hg] at hf
                    cases hf
                  · rw [hr] at hf
                    cases hf
                  · have := schemaStep_error_of_load_error env cfg e hjson hf
                    rw [hs] at this
                    cases this
                  · obtain ⟨msg2, hmsg2⟩ := schemaStep_error_of_no_name env cfg hjson hn
                    rw [hs] at hmsg2
                    cases hmsg2
                  · rw [hd] at hd2
                    injection hd2 with h1
                    subst h1
                    rw [hg] at hg2
                    injection hg2 with h2
                    subst h2
                    rw [hr] at hr2
                    injection hr2 with h3
                    subst h3
                    rw [hs] at hs2
                    injection hs2 with h4
                    injection h4 with h5 h6
                    subst h5
                    subst h6
                    rw [hcr] at hcr2
                    cases hcr2

/-- Witness-style instance of C2 at a concrete fully successful
environment. -/
theorem check_run_exit_code_semantics_witness :
    ((runCheck envBase).exit = 0 ∨ (runCheck envBase).exit = 1) ∧
    ((runCheck envBase).exit = 0 ↔ ¬ RunFailure envBase) :=
  check_run_exit_code_semantics envBase

end TfProviderDocs
